import Mathlib

/-!
Shallow embedding of `src/src/kindagoose-transaction-decorator.service.ts`:
the transaction coordinator (`TransactionInterceptor`), the error translator
(`handleNestException`), the session accessor (`TransactionParam`) and the
configuration value objects (`TransactionsTemplate`, `TransactionInstance`).

Asynchronous data-store calls are modelled by an event trace: every
`startSession`, `startTransaction`, `commitTransaction`, `abortTransaction`
and `endSession` call made during a request is recorded as an `Event`, and
logger output is recorded as `Event.log`.  Promise settlement is modelled by
`POutcome` (fulfilled/rejected); `Promise.allSettled` waits for every promise
and always fulfills, which is what makes a `.catch` chained on it dead code.
Session handles are modelled by the session's name.
-/

namespace TxModel

/-- Write concern bundle of the mongoose session options
(`writeConcern: { w, journal, wtimeoutMS }` in the source). -/
structure WriteConcern where
  w : String
  journal : Bool
  wtimeoutMS : Nat
  deriving DecidableEq, Repr

/-- `defaultTransactionOptions` bundle of a mongoose `ClientSessionOptions`;
fields absent from the read-only preset are `Option`s. -/
structure TransactionOptions where
  readConcern : String
  willRetryWrite : Option Bool
  retryWrites : Option Bool
  readPreference : String
  writeConcern : Option WriteConcern
  maxTimeMS : Nat
  deriving DecidableEq, Repr

/-- Mongoose `ClientSessionOptions` as used by the source. -/
structure SessionOptions where
  defaultTransactionOptions : TransactionOptions
  deriving DecidableEq, Repr

/-- `TransactionsTemplate.defaultSessionOptions` (source lines 37-46). -/
def defaultSessionOptions : SessionOptions :=
  { defaultTransactionOptions :=
    { readConcern := "majority",
      willRetryWrite := some true,
      retryWrites := some true,
      readPreference := "primary",
      writeConcern := some { w := "majority", journal := true, wtimeoutMS := 45000 },
      maxTimeMS := 60000 } }

/-- `TransactionsTemplate.readOnlySessionOptions` (source lines 55-61). -/
def readOnlySessionOptions : SessionOptions :=
  { defaultTransactionOptions :=
    { readConcern := "majority",
      willRetryWrite := none,
      retryWrites := none,
      readPreference := "nearest",
      writeConcern := none,
      maxTimeMS := 60000 } }

/-- `TransactionsTemplate` (source lines 19-26): a named session configuration. -/
structure TransactionsTemplate where
  name : String
  sessionOptions : SessionOptions
  deriving DecidableEq, Repr

/-- The `TransactionsTemplate` constructor (source lines 23-26): an omitted or
null `sessionOptions` argument falls back to the default preset. -/
def TransactionsTemplate.make (name : String) (sessionOptions : Option SessionOptions) :
    TransactionsTemplate :=
  { name := name, sessionOptions := sessionOptions.getD defaultSessionOptions }

/-- `TransactionInstance` (source lines 64-70): a template plus the session
handle slot, set by the interceptor after `startSession`.  The handle is
modelled by the session's name. -/
structure TransactionInstance extends TransactionsTemplate where
  session : Option String
  deriving DecidableEq, Repr

/-- A JavaScript error value as inspected by `handleNestException`: the three
dynamic-type checks of the source (`instanceof MongooseError`, `isAxiosError`,
`instanceof TypeGuardError`) become boolean fields, together with the
`message`, `stack` and `cause` properties the translator reads. -/
structure JsError where
  isMongooseError : Bool
  isAxiosError : Bool
  isTypeGuardError : Bool
  message : String
  stack : String
  cause : Option String
  deriving DecidableEq, Repr

/-- The value stored in an exception's `cause` option: the source stores a
string (`e.message`), the axios error's own `cause`, or the error object
itself. -/
inductive CauseVal where
  | ofString (s : String)
  | ofError (e : JsError)
  deriving DecidableEq, Repr

/-- A value thrown to the caller: a NestJS `InternalServerErrorException` or
`BadRequestException` (message plus `cause`/`description` options), an
untranslated JavaScript error passed through, or the plain string thrown by
the degraded path of `intercept` (source line 149). -/
inductive ThrownValue where
  | internalServerErrorException (message : String) (cause : Option CauseVal)
      (description : Option String)
  | badRequestException (message : String) (cause : Option CauseVal)
      (description : Option String)
  | jsError (e : JsError)
  | rawString (s : String)
  deriving DecidableEq, Repr

/-- `handleNestException` (source lines 179-198): the ordered classification
chain.  MongooseError first, then axios errors, then typia `TypeGuardError`,
otherwise the error is returned unchanged. -/
def handleNestException (e : JsError) : ThrownValue :=
  if e.isMongooseError then
    ThrownValue.internalServerErrorException e.message (some (CauseVal.ofString e.message))
      (some e.stack)
  else if e.isAxiosError then
    ThrownValue.internalServerErrorException e.message (e.cause.map CauseVal.ofString)
      (some e.stack)
  else if e.isTypeGuardError then
    ThrownValue.badRequestException e.message (some (CauseVal.ofError e)) (some e.message)
  else
    ThrownValue.jsError e

/-- ExceptionTranslator as worded by the spec (section 4.4), for refinement
against `handleNestException`: classify in order — data-store client error to
internal/storage carrying the message as summary and cause plus the trace;
remote-call client error to the same kind carrying the remote call's cause;
type-validation failure to bad-request carrying the validation message;
otherwise the error unchanged. -/
def translateSpec (e : JsError) : ThrownValue :=
  if e.isMongooseError then
    ThrownValue.internalServerErrorException e.message (some (CauseVal.ofString e.message))
      (some e.stack)
  else if e.isAxiosError then
    ThrownValue.internalServerErrorException e.message (e.cause.map CauseVal.ofString)
      (some e.stack)
  else if e.isTypeGuardError then
    ThrownValue.badRequestException e.message (some (CauseVal.ofError e)) (some e.message)
  else
    ThrownValue.jsError e

/-- Settlement of a JavaScript promise: fulfilled, or rejected with an error
message. -/
inductive POutcome where
  | fulfilled
  | rejected (msg : String)
  deriving DecidableEq, Repr

/-- `Promise.allSettled`: waits for every promise in the array to settle and
then always fulfills (with the array of settlement records, unused by this
code); it never rejects, whatever the individual outcomes are. -/
def allSettled (_results : List POutcome) : POutcome :=
  POutcome.fulfilled

/-- The trace of one data-store or logger call made by the interceptor. -/
inductive Event where
  | startSession (name : String)
  | startTransaction (name : String)
  | commitTransaction (name : String)
  | abortTransaction (name : String)
  | endSession (name : String)
  | log (msg : String)
  deriving DecidableEq, Repr

/-- Is the event a `commitTransaction` call? -/
def Event.isCommit : Event → Bool
  | Event.commitTransaction _ => true
  | _ => false

/-- Is the event an `abortTransaction` call? -/
def Event.isAbort : Event → Bool
  | Event.abortTransaction _ => true
  | _ => false

/-- Is the event an `endSession` call? -/
def Event.isEnd : Event → Bool
  | Event.endSession _ => true
  | _ => false

/-- Is the event a logger call? -/
def Event.isLog : Event → Bool
  | Event.log _ => true
  | _ => false

/-- Log events produced by `promise.catch(handler)` where the handler logs:
nothing when the promise fulfilled, one log entry when it rejected. -/
def catchLogEvents (p : POutcome) (mkMsg : String → String) : List Event :=
  match p with
  | POutcome.fulfilled => []
  | POutcome.rejected msg => [Event.log (mkMsg msg)]

/-- Behaviour of the data-store client during one request: the settlement of
each `startSession`, `commitTransaction`, `abortTransaction` and `endSession`
call, keyed by the session's name. -/
structure DataStoreBehavior where
  startSession : String → POutcome
  commit : String → POutcome
  abort : String → POutcome
  endOutcome : String → POutcome

/-- The `TransactionInterceptor`'s own state: the injected connection
(modelled by whether one is present) and the
`transactionsToBeGeneratedInInterceptor` field (source line 76), which the
shipped code initializes to the empty list and never assigns. -/
structure TransactionInterceptor where
  hasConnection : Bool
  transactionsToBeGeneratedInInterceptor : List TransactionsTemplate
  deriving DecidableEq, Repr

/-- The `TransactionInterceptor` constructor (source lines 78-88): it stores
the injected connection and nothing else.  The duplicate-name validation and
the assignment of an explicit template list (lines 82-87) are commented out
in the source, so construction always succeeds and the template list is
always empty. -/
def TransactionInterceptor.construct (hasConnection : Bool) :
    Except String TransactionInterceptor :=
  Except.ok { hasConnection := hasConnection, transactionsToBeGeneratedInInterceptor := [] }

/-- The duplicate-name check exactly as written in the commented-out
constructor body (source lines 82-86): collect the names, keep those whose
first index differs from their position, and flag the configuration when any
remain. -/
def hasDuplicateNames (transactions : List TransactionsTemplate) : Bool :=
  let transactionNames := transactions.map (fun t => t.name)
  let duplicateNames := transactionNames.enum.filter
    (fun p => transactionNames.indexOf p.2 != p.1)
  decide (0 < duplicateNames.length)

/-- `getConnection` (source lines 90-96): throws `"No connections found"`
when no database connection was injected. -/
def getConnection (self : TransactionInterceptor) : Except String Unit :=
  if self.hasConnection then Except.ok () else Except.error "No connections found"

/-- The explicit-list branch of `generateTransactions` (source lines
119-124): for each template, get the connection, start a session with the
template's options, begin a transaction on it and bind the handle.  A throw
anywhere rejects the whole generation. -/
def generateFromTemplates (self : TransactionInterceptor) (ds : DataStoreBehavior) :
    List TransactionsTemplate → Except String (List TransactionInstance) × List Event
  | [] => (Except.ok [], [])
  | t :: rest =>
    match getConnection self with
    | Except.error msg => (Except.error msg, [])
    | Except.ok _ =>
      match ds.startSession t.name with
      | POutcome.rejected msg => (Except.error msg, [Event.startSession t.name])
      | POutcome.fulfilled =>
        match generateFromTemplates self ds rest with
        | (result, evs) =>
          (result.map (fun ts => { toTransactionsTemplate := t, session := some t.name } :: ts),
           Event.startSession t.name :: Event.startTransaction t.name :: evs)

/-- `generateTransactions` (source lines 102-127): in the test environment
return an empty list without touching the data store; otherwise, with an
empty `transactionsToBeGeneratedInInterceptor` (always the case for the
shipped constructor), get the connection, start one session named
`"default"` with the default preset, begin its transaction and bind the
handle; with a non-empty list, instantiate each template.  The `Except` error
is the thrown value, the list is the trace of data-store calls made. -/
def generateTransactions (self : TransactionInterceptor) (isTestEnv : Bool)
    (ds : DataStoreBehavior) : Except String (List TransactionInstance) × List Event :=
  if isTestEnv then (Except.ok [], [])
  else if self.transactionsToBeGeneratedInInterceptor.length = 0 then
    match getConnection self with
    | Except.error msg => (Except.error msg, [])
    | Except.ok _ =>
      match ds.startSession "default" with
      | POutcome.rejected msg => (Except.error msg, [Event.startSession "default"])
      | POutcome.fulfilled =>
        (Except.ok [{ name := "default", sessionOptions := defaultSessionOptions,
                      session := some "default" }],
         [Event.startSession "default", Event.startTransaction "default"])
  else
    generateFromTemplates self ds self.transactionsToBeGeneratedInInterceptor

/-- `commitAllTransactions` (source lines 153-158): fire one
`commitTransaction` per instance, `await Promise.allSettled` on them, and
chain a logging `.catch` on the allSettled promise.  Since `allSettled` never
rejects, that handler can never run; the function itself never throws. -/
def commitAllTransactions (ds : DataStoreBehavior)
    (transactions : List TransactionInstance) : List Event :=
  (transactions.map (fun t => Event.commitTransaction t.name)) ++
    catchLogEvents (allSettled (transactions.map (fun t => ds.commit t.name)))
      (fun msg => "Could not commit transaction: " ++ msg)

/-- `endAllSessions` (source lines 171-176): fire one `endSession` per
instance, `await Promise.allSettled`, with a logging `.catch` chained on the
allSettled promise; never throws. -/
def endAllSessions (ds : DataStoreBehavior)
    (transactions : List TransactionInstance) : List Event :=
  (transactions.map (fun t => Event.endSession t.name)) ++
    catchLogEvents (allSettled (transactions.map (fun t => ds.endOutcome t.name)))
      (fun msg => "Could not release connection: " ++ msg)

/-- `handleTransactionExceptions` (source lines 160-169): abort every
instance's transaction (settle-all, with the same dead logging `.catch`),
await that, then end every session, then throw the translated original
handler error.  Returns the trace of calls and the thrown value. -/
def handleTransactionExceptions (ds : DataStoreBehavior)
    (transactions : List TransactionInstance) (e : JsError) : List Event × ThrownValue :=
  ((transactions.map (fun t => Event.abortTransaction t.name)) ++
      catchLogEvents (allSettled (transactions.map (fun t => ds.abort t.name)))
        (fun msg => "Could not rollback transaction: " ++ msg) ++
      endAllSessions ds transactions,
   handleNestException e)

/-- The request-scoped state the interceptor writes and `TransactionParam`
reads: `req.transactions` (absent when never assigned) and
`req.isUsingTransaction` (`false` models absent/anything other than `true`,
which is what the source's `!== true` test distinguishes). -/
structure RequestState where
  transactions : Option (List TransactionInstance)
  isUsingTransaction : Bool
  deriving DecidableEq, Repr

/-- Everything observable about one intercepted request: the data-store calls
made while generating sessions, the request-scoped state left on the request,
whether the wrapped handler was invoked, the calls made after the handler
settled, and what the caller observes. -/
structure RequestTrace where
  preEvents : List Event
  reqState : RequestState
  handlerInvoked : Bool
  postEvents : List Event
  outcome : Except ThrownValue String

/-- `Error.prototype.toString` for an error constructed as `new Error(msg)`:
the name `"Error"`, a colon and the message. -/
def errorToString (message : String) : String := "Error: " ++ message

/-- `intercept` (source lines 129-151).  The handler's behaviour is its
settlement: a response value or a thrown error.  Normal path: generate the
sessions, assign `req.transactions` and `req.isUsingTransaction := true`,
invoke the handler; on success commit all then end all (the `tap` callback
awaits the commits' allSettled before ending); on failure run
`handleTransactionExceptions`, whose thrown translated error the caller
observes.  Degraded path (generation threw): neither request field is
assigned, the handler still runs, its success passes through, and its failure
is replaced by the plain string
`Failed To Acquire Mongoose lock` followed by the generation error's
`toString()`. -/
def intercept (self : TransactionInterceptor) (isTestEnv : Bool) (ds : DataStoreBehavior)
    (handler : Except JsError String) : RequestTrace :=
  match generateTransactions self isTestEnv ds with
  | (Except.ok transactions, preEvents) =>
    match handler with
    | Except.ok v =>
      { preEvents := preEvents,
        reqState := { transactions := some transactions, isUsingTransaction := true },
        handlerInvoked := true,
        postEvents := commitAllTransactions ds transactions ++ endAllSessions ds transactions,
        outcome := Except.ok v }
    | Except.error e =>
      { preEvents := preEvents,
        reqState := { transactions := some transactions, isUsingTransaction := true },
        handlerInvoked := true,
        postEvents := (handleTransactionExceptions ds transactions e).1,
        outcome := Except.error (handleTransactionExceptions ds transactions e).2 }
  | (Except.error genError, preEvents) =>
    match handler with
    | Except.ok v =>
      { preEvents := preEvents,
        reqState := { transactions := none, isUsingTransaction := false },
        handlerInvoked := true,
        postEvents := [],
        outcome := Except.ok v }
    | Except.error _ =>
      { preEvents := preEvents,
        reqState := { transactions := none, isUsingTransaction := false },
        handlerInvoked := true,
        postEvents := [],
        outcome := Except.error (ThrownValue.rawString
          ("Failed To Acquire Mongoose lock " ++ errorToString genError)) }

/-- `TransactionParam` (source lines 204-213): with `_data` defaulting to
`"default"`, throw an `InternalServerErrorException` when
`req.isUsingTransaction !== true`, otherwise return the first instance with
the requested name's session handle, or null when there is none. -/
def TransactionParam (data : Option String) (req : RequestState) :
    Except ThrownValue (Option String) :=
  if req.isUsingTransaction = true then
    Except.ok (((req.transactions.getD []).find?
      (fun t => t.name == data.getD "default")).bind TransactionInstance.session)
  else
    Except.error (ThrownValue.internalServerErrorException
      "TransactionParam can only be used with routes that have the TransactionInterceptor applied"
      none none)

/-- The instances whose sessions were successfully opened for a request:
the generated list, or nothing when generation threw. -/
def openedInstances (self : TransactionInterceptor) (isTestEnv : Bool)
    (ds : DataStoreBehavior) : List TransactionInstance :=
  match generateTransactions self isTestEnv ds with
  | (Except.ok ts, _) => ts
  | (Except.error _, _) => []

/-- Every `commitTransaction` call in the trace happens before every
`endSession` call: after any `endSession` there is no further commit. -/
def commitsPrecedeEnds : List Event → Bool
  | [] => true
  | ev :: rest =>
    (if Event.isEnd ev then rest.all (fun x => ! Event.isCommit x) else true) &&
      commitsPrecedeEnds rest

/-- Every `abortTransaction` call in the trace happens before every
`endSession` call: after any `endSession` there is no further abort. -/
def abortsPrecedeEnds : List Event → Bool
  | [] => true
  | ev :: rest =>
    (if Event.isEnd ev then rest.all (fun x => ! Event.isAbort x) else true) &&
      abortsPrecedeEnds rest

/-- The interceptor state produced by the shipped constructor when a
connection is present. -/
def shippedInterceptor : TransactionInterceptor :=
  { hasConnection := true, transactionsToBeGeneratedInInterceptor := [] }

/-- The interceptor state produced by the shipped constructor when no
database connection is configured. -/
def noConnectionInterceptor : TransactionInterceptor :=
  { hasConnection := false, transactionsToBeGeneratedInInterceptor := [] }

/-- A data store on which every call fulfills. -/
def dsAllOk : DataStoreBehavior :=
  { startSession := fun _ => POutcome.fulfilled,
    commit := fun _ => POutcome.fulfilled,
    abort := fun _ => POutcome.fulfilled,
    endOutcome := fun _ => POutcome.fulfilled }

end TxModel

namespace TxModel

/-! Helper lemmas shared by the claim theorems. -/

/-- A `.catch` chained on `Promise.allSettled` never fires, so it logs
nothing. -/
theorem catchLogEvents_allSettled (l : List POutcome) (f : String → String) :
    catchLogEvents (allSettled l) f = [] := rfl

/-- `commitAllTransactions` makes exactly one commit call per instance and
logs nothing. -/
theorem commitAllTransactions_eq (ds : DataStoreBehavior) (ts : List TransactionInstance) :
    commitAllTransactions ds ts = ts.map (fun t => Event.commitTransaction t.name) := by
  simp [commitAllTransactions, allSettled, catchLogEvents]

/-- `endAllSessions` makes exactly one end call per instance and logs
nothing. -/
theorem endAllSessions_eq (ds : DataStoreBehavior) (ts : List TransactionInstance) :
    endAllSessions ds ts = ts.map (fun t => Event.endSession t.name) := by
  simp [endAllSessions, allSettled, catchLogEvents]

/-- `handleTransactionExceptions` makes one abort call per instance, then one
end call per instance, logs nothing, and throws the translated original
error. -/
theorem handleTransactionExceptions_eq (ds : DataStoreBehavior)
    (ts : List TransactionInstance) (e : JsError) :
    handleTransactionExceptions ds ts e =
      (ts.map (fun t => Event.abortTransaction t.name) ++
        ts.map (fun t => Event.endSession t.name), handleNestException e) := by
  simp [handleTransactionExceptions, endAllSessions_eq, allSettled, catchLogEvents]

/-- The single instance generated by the shipped interceptor in normal mode. -/
def defaultInstance : TransactionInstance :=
  { name := "default", sessionOptions := defaultSessionOptions, session := some "default" }

/-- In normal mode, with a connection present and `startSession` fulfilled,
the shipped interceptor generates exactly the default instance, with one
`startSession` and one `startTransaction` call. -/
theorem generateTransactions_shipped (ds : DataStoreBehavior)
    (hopen : ds.startSession "default" = POutcome.fulfilled) :
    generateTransactions shippedInterceptor false ds =
      (Except.ok [defaultInstance],
       [Event.startSession "default", Event.startTransaction "default"]) := by
  simp [generateTransactions, shippedInterceptor, getConnection, hopen, defaultInstance]

end TxModel

namespace TxModel

/-- Evaluation of a successful normal-mode request on the shipped
interceptor: one session opened, one commit then one end, response passed
through. -/
theorem intercept_shipped_ok_eval (ds : DataStoreBehavior) (v : String)
    (hopen : ds.startSession "default" = POutcome.fulfilled) :
    intercept shippedInterceptor false ds (Except.ok v) =
      { preEvents := [Event.startSession "default", Event.startTransaction "default"],
        reqState := { transactions := some [defaultInstance], isUsingTransaction := true },
        handlerInvoked := true,
        postEvents := [Event.commitTransaction "default", Event.endSession "default"],
        outcome := Except.ok v } := by
  simp [intercept, generateTransactions_shipped ds hopen, commitAllTransactions_eq,
    endAllSessions_eq, defaultInstance]

/-- Evaluation of a failed normal-mode request on the shipped interceptor:
one session opened, one abort then one end, the translated original error
re-raised. -/
theorem intercept_shipped_error_eval (ds : DataStoreBehavior) (e : JsError)
    (hopen : ds.startSession "default" = POutcome.fulfilled) :
    intercept shippedInterceptor false ds (Except.error e) =
      { preEvents := [Event.startSession "default", Event.startTransaction "default"],
        reqState := { transactions := some [defaultInstance], isUsingTransaction := true },
        handlerInvoked := true,
        postEvents := [Event.abortTransaction "default", Event.endSession "default"],
        outcome := Except.error (handleNestException e) } := by
  simp [intercept, generateTransactions_shipped ds hopen, handleTransactionExceptions_eq,
    defaultInstance]

/-- C1: for a normal-mode request whose session opened successfully and whose
handler succeeds, every SessionInstance opened for the request receives
exactly one commit attempt and exactly one end-session attempt in the
post-handler trace, every commit attempt settles before any end-session call
(no commit call follows an end-session call), and the caller observes the
handler's response. -/
theorem c1_success_commit_once_then_end_once (ds : DataStoreBehavior) (v : String)
    (hopen : ds.startSession "default" = POutcome.fulfilled) :
    (∀ t ∈ openedInstances shippedInterceptor false ds,
        (intercept shippedInterceptor false ds (Except.ok v)).postEvents.count
          (Event.commitTransaction t.name) = 1
        ∧ (intercept shippedInterceptor false ds (Except.ok v)).postEvents.count
          (Event.endSession t.name) = 1)
    ∧ commitsPrecedeEnds (intercept shippedInterceptor false ds (Except.ok v)).postEvents = true
    ∧ (intercept shippedInterceptor false ds (Except.ok v)).outcome = Except.ok v := by
  have hg := generateTransactions_shipped ds hopen
  rw [intercept_shipped_ok_eval ds v hopen]
  refine ⟨?_, ?_, rfl⟩
  · intro t ht
    simp [openedInstances, hg] at ht
    subst ht
    refine ⟨?_, ?_⟩
    · show ([Event.commitTransaction "default", Event.endSession "default"]).count
        (Event.commitTransaction defaultInstance.name) = 1
      decide
    · show ([Event.commitTransaction "default", Event.endSession "default"]).count
        (Event.endSession defaultInstance.name) = 1
      decide
  · show commitsPrecedeEnds
      [Event.commitTransaction "default", Event.endSession "default"] = true
    decide

/-- Witness for C1 at a concrete data store on which every call fulfills. -/
theorem c1_success_commit_once_then_end_once_witness :
    dsAllOk.startSession "default" = POutcome.fulfilled
    ∧ (intercept shippedInterceptor false dsAllOk (Except.ok "value")).outcome =
        Except.ok "value" :=
  ⟨rfl, (c1_success_commit_once_then_end_once dsAllOk "value" rfl).2.2⟩

/-- C2: for a normal-mode request whose session opened successfully and whose
handler throws, every SessionInstance opened for the request receives exactly
one abort attempt and exactly one end-session attempt in that order, no
commit attempt is made, and the caller observes exactly the translation of
the original handler error — whatever the commit/abort/end outcomes of the
data store are. -/
theorem c2_failure_abort_once_then_end_once (ds : DataStoreBehavior) (e : JsError)
    (hopen : ds.startSession "default" = POutcome.fulfilled) :
    (∀ t ∈ openedInstances shippedInterceptor false ds,
        (intercept shippedInterceptor false ds (Except.error e)).postEvents.count
          (Event.abortTransaction t.name) = 1
        ∧ (intercept shippedInterceptor false ds (Except.error e)).postEvents.count
          (Event.endSession t.name) = 1)
    ∧ (intercept shippedInterceptor false ds (Except.error e)).postEvents.all
        (fun ev => ! Event.isCommit ev) = true
    ∧ abortsPrecedeEnds (intercept shippedInterceptor false ds (Except.error e)).postEvents = true
    ∧ (intercept shippedInterceptor false ds (Except.error e)).outcome =
        Except.error (handleNestException e) := by
  have hg := generateTransactions_shipped ds hopen
  rw [intercept_shipped_error_eval ds e hopen]
  refine ⟨?_, ?_, ?_, rfl⟩
  · intro t ht
    simp [openedInstances, hg] at ht
    subst ht
    refine ⟨?_, ?_⟩
    · show ([Event.abortTransaction "default", Event.endSession "default"]).count
        (Event.abortTransaction defaultInstance.name) = 1
      decide
    · show ([Event.abortTransaction "default", Event.endSession "default"]).count
        (Event.endSession defaultInstance.name) = 1
      decide
  · show ([Event.abortTransaction "default", Event.endSession "default"]).all
      (fun ev => ! Event.isCommit ev) = true
    decide
  · show abortsPrecedeEnds
      [Event.abortTransaction "default", Event.endSession "default"] = true
    decide

/-- A data-store client error, as classified by the translator. -/
def mongoError : JsError :=
  { isMongooseError := true, isAxiosError := false, isTypeGuardError := false,
    message := "write conflict", stack := "trace", cause := none }

/-- Witness for C2 at a concrete data store and handler error. -/
theorem c2_failure_abort_once_then_end_once_witness :
    dsAllOk.startSession "default" = POutcome.fulfilled
    ∧ (intercept shippedInterceptor false dsAllOk (Except.error mongoError)).outcome =
        Except.error (handleNestException mongoError) :=
  ⟨rfl, (c2_failure_abort_once_then_end_once dsAllOk mongoError rfl).2.2.2⟩

end TxModel

namespace TxModel

/-- An explicit configuration with two templates sharing the name
`"default"`. -/
def duplicateTemplates : List TransactionsTemplate :=
  [TransactionsTemplate.make "default" none, TransactionsTemplate.make "default" none]

/-- C3 (code evaluation): the check from the commented-out constructor body
flags this configuration as containing duplicate names, yet the shipped
constructor validates nothing and always succeeds — whatever connection it is
given — leaving the interceptor's template list empty, so no explicit
configuration, duplicate-named or otherwise, is ever rejected with a
construction-time error. -/
theorem c3_constructor_rejects_nothing :
    hasDuplicateNames duplicateTemplates = true
    ∧ TransactionInterceptor.construct true =
        Except.ok { hasConnection := true, transactionsToBeGeneratedInInterceptor := [] }
    ∧ TransactionInterceptor.construct false =
        Except.ok { hasConnection := false, transactionsToBeGeneratedInInterceptor := [] } :=
  ⟨by decide, rfl, rfl⟩

/-- C4: the translator is a total, pure classification chain applied in
order: a data-store client error yields an internal/storage exception whose
summary and cause are both the error's message, with its trace as
description; otherwise a remote-call client error yields the same kind
carrying the remote call's cause; otherwise a type-validation failure yields
a bad-request exception carrying the validation message; otherwise the error
is returned unchanged.  The first conjunct refines the source translator
against the spec's wording; totality and freedom from side effects hold by
construction, `handleNestException` being a total function on `JsError`. -/
theorem c4_translator_ordered_classification (e : JsError) :
    handleNestException e = translateSpec e
    ∧ (e.isMongooseError = true →
        handleNestException e = ThrownValue.internalServerErrorException e.message
          (some (CauseVal.ofString e.message)) (some e.stack))
    ∧ (e.isMongooseError = false → e.isAxiosError = true →
        handleNestException e = ThrownValue.internalServerErrorException e.message
          (e.cause.map CauseVal.ofString) (some e.stack))
    ∧ (e.isMongooseError = false → e.isAxiosError = false → e.isTypeGuardError = true →
        handleNestException e = ThrownValue.badRequestException e.message
          (some (CauseVal.ofError e)) (some e.message))
    ∧ (e.isMongooseError = false → e.isAxiosError = false → e.isTypeGuardError = false →
        handleNestException e = ThrownValue.jsError e) := by
  refine ⟨rfl, ?_, ?_, ?_, ?_⟩ <;> intros <;> simp_all [handleNestException]

/-- An error matching none of the translator's classification rules. -/
def plainError : JsError :=
  { isMongooseError := false, isAxiosError := false, isTypeGuardError := false,
    message := "boom", stack := "trace", cause := none }

/-- Witness for C4: an unclassified error passes through unchanged. -/
theorem c4_translator_ordered_classification_witness :
    handleNestException plainError = ThrownValue.jsError plainError :=
  (c4_translator_ordered_classification plainError).2.2.2.2 rfl rfl rfl

/-- C5: in the test/bypass environment the interceptor makes no data-store
call at all (empty call trace on both sides of the handler, for any
interceptor state, data store and handler outcome), attaches an empty
`sessions` list with `usingTransaction` still set to true, and every
`TransactionParam` lookup — any name, any handler outcome — succeeds and
returns empty. -/
theorem c5_bypass_mode (self : TransactionInterceptor) (ds : DataStoreBehavior)
    (handler : Except JsError String) (n : Option String) :
    (intercept self true ds handler).preEvents = []
    ∧ (intercept self true ds handler).postEvents = []
    ∧ (intercept self true ds handler).reqState.transactions = some []
    ∧ (intercept self true ds handler).reqState.isUsingTransaction = true
    ∧ TransactionParam n (intercept self true ds handler).reqState = Except.ok none := by
  cases handler <;>
    simp [intercept, generateTransactions, TransactionParam, commitAllTransactions,
      endAllSessions, handleTransactionExceptions, allSettled, catchLogEvents]

/-- C6: invoked on request state whose `usingTransaction` flag was never set,
`TransactionParam` raises the internal misuse error instead of returning
empty, whatever name is requested and whatever the `transactions` field
holds. -/
theorem c6_misuse_raises (n : Option String) (ts : Option (List TransactionInstance)) :
    TransactionParam n { transactions := ts, isUsingTransaction := false } =
      Except.error (ThrownValue.internalServerErrorException
        "TransactionParam can only be used with routes that have the TransactionInterceptor applied"
        none none) := by
  simp [TransactionParam]

/-- C7: once the coordinator ran (`usingTransaction` set), `TransactionParam`
never raises; with a name defaulting to `"default"`, it returns the session
handle of the instance with that name, and returns empty when no instance
with that name exists — including on an empty sessions list. -/
theorem c7_lookup_by_name (n : Option String) (ts : List TransactionInstance) :
    (∃ r, TransactionParam n { transactions := some ts, isUsingTransaction := true } =
        Except.ok r)
    ∧ ((ts.find? (fun t => t.name == n.getD "default")) = none →
        TransactionParam n { transactions := some ts, isUsingTransaction := true } =
          Except.ok none)
    ∧ (∀ t, (ts.find? (fun t2 => t2.name == n.getD "default")) = some t →
        TransactionParam n { transactions := some ts, isUsingTransaction := true } =
          Except.ok t.session) := by
  refine ⟨⟨_, rfl⟩, ?_, ?_⟩
  · intro h
    simp [TransactionParam, h]
  · intro t h
    simp [TransactionParam, h]

/-- Witness for C7: on an empty sessions list every lookup returns empty. -/
theorem c7_lookup_by_name_witness :
    TransactionParam none { transactions := some [], isUsingTransaction := true } =
      Except.ok none :=
  (c7_lookup_by_name none []).2.1 rfl

/-- C8: when no database connection is configured, the interceptor opens no
session and makes no data-store call, still invokes the handler, lets a
successful handler response pass through unchanged, and replaces a failed
handler's error with the plain lock-acquisition failure string wrapping the
original cause. -/
theorem c8_degraded_path (ds : DataStoreBehavior) (handler : Except JsError String) :
    (intercept noConnectionInterceptor false ds handler).preEvents = []
    ∧ (intercept noConnectionInterceptor false ds handler).postEvents = []
    ∧ (intercept noConnectionInterceptor false ds handler).handlerInvoked = true
    ∧ (∀ v, handler = Except.ok v →
        (intercept noConnectionInterceptor false ds handler).outcome = Except.ok v)
    ∧ (∀ e, handler = Except.error e →
        (intercept noConnectionInterceptor false ds handler).outcome =
          Except.error (ThrownValue.rawString
            "Failed To Acquire Mongoose lock Error: No connections found")) := by
  cases handler <;>
    simp [intercept, generateTransactions, noConnectionInterceptor, getConnection,
      errorToString]

/-- Witness for C8: the degraded path with a failing handler surfaces the
lock-acquisition failure string. -/
theorem c8_degraded_path_witness :
    (intercept noConnectionInterceptor false dsAllOk (Except.error plainError)).outcome =
      Except.error (ThrownValue.rawString
        "Failed To Acquire Mongoose lock Error: No connections found") :=
  (c8_degraded_path dsAllOk (Except.error plainError)).2.2.2.2 plainError rfl

end TxModel

namespace TxModel

/-- A second opened instance, named `"analytics"`. -/
def analyticsInstance : TransactionInstance :=
  { name := "analytics", sessionOptions := defaultSessionOptions, session := some "analytics" }

/-- Two opened instances, as the commit/end fan-out receives them in
multi-session operation. -/
def twoInstances : List TransactionInstance := [defaultInstance, analyticsInstance]

/-- A data store on which the commit of the `"default"` session rejects and
every other call fulfills. -/
def dsCommitRejects : DataStoreBehavior :=
  { startSession := fun _ => POutcome.fulfilled,
    commit := fun name => if name == "default" then POutcome.rejected "commit failed"
      else POutcome.fulfilled,
    abort := fun _ => POutcome.fulfilled,
    endOutcome := fun _ => POutcome.fulfilled }

/-- C9 (code evaluation): on two sessions whose first commit rejects after a
successful handler, both commits are still attempted, both sessions are still
ended, every commit precedes every end, and the caller observes success; but
the failing commit produces no log event — the logging `.catch` is chained on
`Promise.allSettled`, which never rejects, so commit rejections are swallowed
silently rather than logged. -/
theorem c9_commit_failure_swallowed_unlogged :
    dsCommitRejects.commit "default" = POutcome.rejected "commit failed"
    ∧ commitAllTransactions dsCommitRejects twoInstances =
        [Event.commitTransaction "default", Event.commitTransaction "analytics"]
    ∧ endAllSessions dsCommitRejects twoInstances =
        [Event.endSession "default", Event.endSession "analytics"]
    ∧ (commitAllTransactions dsCommitRejects twoInstances ++
        endAllSessions dsCommitRejects twoInstances).all (fun ev => ! Event.isLog ev) = true
    ∧ commitsPrecedeEnds (commitAllTransactions dsCommitRejects twoInstances ++
        endAllSessions dsCommitRejects twoInstances) = true
    ∧ (intercept shippedInterceptor false dsCommitRejects (Except.ok "value")).outcome =
        Except.ok "value" := by
  refine ⟨by decide, by decide, by decide, by decide, by decide, rfl⟩

/-- C10: whenever session generation throws — for any interceptor state,
environment, data store and handler outcome — the interceptor assigns neither
`transactions` nor `usingTransaction` on the request, so every
`TransactionParam` call on that request's state raises the misuse error. -/
theorem c10_generation_throw_leaves_state_unset (self : TransactionInterceptor)
    (isTestEnv : Bool) (ds : DataStoreBehavior) (handler : Except JsError String)
    (n : Option String) (msg : String) (evs : List Event)
    (hgen : generateTransactions self isTestEnv ds = (Except.error msg, evs)) :
    (intercept self isTestEnv ds handler).reqState.transactions = none
    ∧ (intercept self isTestEnv ds handler).reqState.isUsingTransaction = false
    ∧ TransactionParam n (intercept self isTestEnv ds handler).reqState =
        Except.error (ThrownValue.internalServerErrorException
          "TransactionParam can only be used with routes that have the TransactionInterceptor applied"
          none none) := by
  cases handler <;> simp [intercept, hgen, TransactionParam]

/-- Witness for C10: with no database connection configured, generation
throws and the accessor raises the misuse error during an otherwise
successful request. -/
theorem c10_generation_throw_leaves_state_unset_witness :
    generateTransactions noConnectionInterceptor false dsAllOk =
      (Except.error "No connections found", [])
    ∧ TransactionParam none
        (intercept noConnectionInterceptor false dsAllOk (Except.ok "value")).reqState =
      Except.error (ThrownValue.internalServerErrorException
        "TransactionParam can only be used with routes that have the TransactionInterceptor applied"
        none none) :=
  ⟨rfl, (c10_generation_throw_leaves_state_unset noConnectionInterceptor false dsAllOk
    (Except.ok "value") none "No connections found" [] rfl).2.2⟩

end TxModel
